import Mathlib

/-!
# Verification of the Windborne Balloon Tracker proximity engine

Shallow embedding of `src/lib/proximityAnalysis.ts` (the Proximity &
Intersection Analysis Engine) and proofs of the specification claims.

Modelling conventions:
* JS `number` coordinates, distances and epoch-millisecond timestamps are
  modelled as `ℚ`.
* turf.js geometric primitives used by the code:
  `booleanPointInPolygon` is implemented exactly (turf's ray-casting
  `inRing` loop, boundary counted as inside); the haversine-based
  quantities — `turf.distance(p, nearestPointOnLine(lineString(cs), p))`
  and `turf.pointToLineDistance` — are abstract function parameters
  `bd`/`ptl`, since their trigonometric values never decide the control
  flow being verified.
* JS exceptions (thrown inside turf on malformed geometry) are modelled
  with `Except String`; a thrown exception aborts the whole analysis
  call, exactly as an uncaught JS exception does.
* The wall-clock reading `new Date()` performed *inside*
  `analyzeHurricaneIntersections`, `analyzeFutureTrajectoryIntersections`
  and `getRecentTrajectory` is modelled as an explicit argument `now`
  (epoch ms): the argument stands for the value the system clock returns
  during the call.
-/

/-- A longitude/latitude pair, the element type of GeoJSON rings and lines
(turf positions are `[lon, lat]`). -/
structure Coord where
  lon : ℚ
  lat : ℚ
deriving DecidableEq, Repr

/-- `GeoJSON.Polygon | GeoJSON.MultiPolygon` as stored in
`StormCone.geometry`: a polygon is a list of rings, a multipolygon a list
of polygons. -/
inductive StormGeometry where
  | polygon (rings : List (List Coord))
  | multiPolygon (polys : List (List (List Coord)))
deriving DecidableEq, Repr

/-- `BalloonDataPoint` of `src/types` (`timestamp` is the epoch-ms value of
`new Date(point.timestamp).getTime()`). -/
structure BalloonDataPoint where
  latitude : ℚ
  longitude : ℚ
  altitude : ℚ
  timestamp : ℚ
  balloonId : String
deriving DecidableEq, Repr

/-- `BalloonTrail` of `src/types`. -/
structure BalloonTrail where
  balloonId : String
  points : List BalloonDataPoint
  color : String
deriving DecidableEq, Repr

/-- `StormCone` of `src/types`, restricted to the fields the engine reads:
`properties.stormName` and `geometry`. -/
structure StormCone where
  stormName : String
  geometry : StormGeometry
deriving DecidableEq, Repr

/-- `StormTrack` of `src/types`: `properties.stormName` plus the
`GeoJSON.LineString` coordinates (the interface fixes `geometry.type` to
`LineString`, so the code's `geometry?.type === 'LineString'` test holds
whenever a track is found). -/
structure StormTrack where
  stormName : String
  coords : List Coord
deriving DecidableEq, Repr

/-- `ProximityAlert` of `src/types`. -/
structure ProximityAlert where
  balloonId : String
  stormName : String
  closestDistance : ℚ
  timestamp : ℚ
  altitude : ℚ
  insideForcastCone : Bool
deriving DecidableEq, Repr

/-- The `'past' | 'future'` union used by `HurricaneIntersection`. -/
inductive IntersectionKind where
  | past
  | future
deriving DecidableEq, Repr

/-- `HurricaneIntersection` of `src/types` (`timestamp` in epoch ms). -/
structure HurricaneIntersection where
  balloonId : String
  stormName : String
  intersectionType : IntersectionKind
  closestDistance : ℚ
  timestamp : ℚ
  altitude : ℚ
  insideForcastCone : Bool
  hoursFromNow : ℚ
deriving DecidableEq, Repr

/-- `const RISK_THRESHOLD_KM = 100` (proximityAnalysis.ts line 4). -/
def RISK_THRESHOLD_KM : ℚ := 100

/-- The message of the `TypeError` JavaScript raises when turf's `inRing`
dereferences `ring[0][0]` on an empty ring (or when `coordinates[0]` is
`undefined`): a generic runtime error carrying no storm information. -/
def undefinedReadMsg : String := "Cannot read properties of undefined"

/-- The error turf's `lineString` raises on fewer than two positions. -/
def lineStringMsg : String := "coordinates must be an array of two or more positions"

/-- The longitude/latitude coordinate of a balloon sample, as built by
`turf.point([point.longitude, point.latitude])`. -/
def coordOf (p : BalloonDataPoint) : Coord :=
  ⟨p.longitude, p.latitude⟩

/-- One iteration step of turf's `inRing` ray-casting loop: the pairs are
`(ring[i], ring[j])` with `j = i-1` (wrapping), `isInside` the running
parity.  An on-boundary hit returns `!ignoreBoundary` immediately (turf's
early `return`). -/
def inRingLoop (pt : Coord) (ignoreBoundary : Bool) :
    List (Coord × Coord) → Bool → Bool
  | [], isInside => isInside
  | (vi, vj) :: rest, isInside =>
    let onBoundary :=
      decide (pt.lat * (vi.lon - vj.lon) + vi.lat * (vj.lon - pt.lon) +
          vj.lat * (pt.lon - vi.lon) = 0) &&
      decide ((vi.lon - pt.lon) * (vj.lon - pt.lon) ≤ 0) &&
      decide ((vi.lat - pt.lat) * (vj.lat - pt.lat) ≤ 0)
    if onBoundary then !ignoreBoundary
    else
      let intersect :=
        (decide (pt.lat < vi.lat) != decide (pt.lat < vj.lat)) &&
        decide (pt.lon <
          (vj.lon - vi.lon) * (pt.lat - vi.lat) / (vj.lat - vi.lat) + vi.lon)
      inRingLoop pt ignoreBoundary rest (if intersect then !isInside else isInside)

/-- turf's `inRing pt ring ignoreBoundary`.  JS dereferences `ring[0][0]`
first, so an empty ring throws a `TypeError`; a closing point equal to the
first is dropped; then the ray-casting loop runs over `(ring[i], ring[j>])`
pairs where the `j` component starts at the last vertex. -/
def inRing (pt : Coord) (ring : List Coord) (ignoreBoundary : Bool) :
    Except String Bool :=
  match ring with
  | [] => .error undefinedReadMsg
  | r0 :: rest =>
    let ring2 :=
      if (r0 :: rest).getLast? = some r0 then (r0 :: rest).dropLast
      else r0 :: rest
    match ring2.getLast? with
    | none => .ok false
    | some lastV =>
      .ok (inRingLoop pt ignoreBoundary (ring2.zip (lastV :: ring2.dropLast)) false)

/-- The hole-scanning `while` of turf's `booleanPointInPolygon`
(`ignoreBoundary = true` for holes). -/
def inHoles (pt : Coord) : List (List Coord) → Except String Bool
  | [] => .ok false
  | ring :: rest => do
    let b ← inRing pt ring true
    if b then .ok true else inHoles pt rest

/-- One polygon (outer ring + holes) of turf's `booleanPointInPolygon`:
inside iff in the outer ring and in no hole.  `polys[i][0]` on a ring-less
polygon is `undefined` and throws. -/
def inPolyRings (pt : Coord) : List (List Coord) → Except String Bool
  | [] => .error undefinedReadMsg
  | outer :: holes => do
    let o ← inRing pt outer false
    if o then do
      let h ← inHoles pt holes
      .ok (!h)
    else .ok false

/-- The polygon loop of turf's `booleanPointInPolygon` for a MultiPolygon
(stops at the first containing polygon). -/
def loopPolys (pt : Coord) : List (List (List Coord)) → Except String Bool
  | [] => .ok false
  | poly :: rest => do
    let b ← inPolyRings pt poly
    if b then .ok true else loopPolys pt rest

/-- `turf.booleanPointInPolygon(pt, geometry)` with the default
`ignoreBoundary = false` used throughout proximityAnalysis.ts. -/
def booleanPointInPolygon (pt : Coord) (g : StormGeometry) : Except String Bool :=
  match g with
  | .polygon rings => inPolyRings pt rings
  | .multiPolygon polys => loopPolys pt polys

/-- Lines 49-51 / 187-189: `polygon.type === 'Polygon' ? coordinates[0]
: coordinates[0][0]`; a missing ring is `undefined` and throws once used. -/
def polygonCoordsOf (g : StormGeometry) : Except String (List Coord) :=
  match g with
  | .polygon rings =>
    match rings with
    | [] => .error undefinedReadMsg
    | r :: _ => .ok r
  | .multiPolygon polys =>
    match polys with
    | [] => .error undefinedReadMsg
    | p :: _ =>
      match p with
      | [] => .error undefinedReadMsg
      | r :: _ => .ok r

/-- `turf.lineString(coords)`: rejects fewer than two positions. -/
def lineStringChecked (coords : List Coord) : Except String (List Coord) :=
  if coords.length < 2 then .error lineStringMsg else .ok coords

/-- `calculateDistanceToPolygon` (lines 180-194): 0 when inside, otherwise
`turf.distance(pt, nearestPointOnLine(lineString(ring), pt))`, the latter
composite being the abstract parameter `bd`.  The identical inline logic of
`findClosestPointToStorm` (lines 43-56) is shared through this definition. -/
def calculateDistanceToPolygon (bd : Coord → List Coord → ℚ)
    (pt : Coord) (g : StormGeometry) : Except String ℚ := do
  let inside ← booleanPointInPolygon pt g
  if inside then pure 0
  else do
    let polygonCoords ← polygonCoordsOf g
    let line ← lineStringChecked polygonCoords
    pure (bd pt line)

/-- The `trail.points.forEach` accumulation of `findClosestPointToStorm`
(lines 37-62): keep the point of strictly smallest distance (`Infinity`
initialisation modelled by the `none` accumulator). -/
def closestLoop (bd : Coord → List Coord → ℚ) (storm : StormCone) :
    List BalloonDataPoint → Option (BalloonDataPoint × ℚ) →
    Except String (Option (BalloonDataPoint × ℚ))
  | [], acc => .ok acc
  | p :: ps, acc => do
    let distance ← calculateDistanceToPolygon bd (coordOf p) storm.geometry
    let acc2 :=
      match acc with
      | none => some (p, distance)
      | some (q, m) => if distance < m then some (p, distance) else some (q, m)
    closestLoop bd storm ps acc2

/-- `findClosestPointToStorm` (lines 33-65). -/
def findClosestPointToStorm (bd : Coord → List Coord → ℚ)
    (trail : BalloonTrail) (storm : StormCone) :
    Except String (Option (BalloonDataPoint × ℚ)) :=
  closestLoop bd storm trail.points none

/-- The alert (0 or 1 of them) that `analyzeProximity` pushes for one
(trail, storm) pair (lines 15-26); `isPointInsidePolygon` is the same
`booleanPointInPolygon` call (lines 67-70). -/
def alertsForTrailStorm (bd : Coord → List Coord → ℚ)
    (trail : BalloonTrail) (storm : StormCone) :
    Except String (List ProximityAlert) := do
  let r ← findClosestPointToStorm bd trail storm
  match r with
  | some (point, distance) =>
    if distance ≤ RISK_THRESHOLD_KM then do
      let inside ← booleanPointInPolygon (coordOf point) storm.geometry
      pure [⟨trail.balloonId, storm.stormName, distance,
             point.timestamp, point.altitude, inside⟩]
    else pure []
  | none => pure []

/-- The inner `stormCones.forEach` of `analyzeProximity`. -/
def proximityRawStorms (bd : Coord → List Coord → ℚ) (trail : BalloonTrail) :
    List StormCone → Except String (List ProximityAlert)
  | [] => .ok []
  | s :: ss => do
    let a ← alertsForTrailStorm bd trail s
    let rest ← proximityRawStorms bd trail ss
    pure (a ++ rest)

/-- The outer `balloonTrails.forEach` of `analyzeProximity`: the unsorted
`alerts` array of lines 10-28, in trail-major, storm-minor push order. -/
def proximityRaw (bd : Coord → List Coord → ℚ) :
    List BalloonTrail → List StormCone → Except String (List ProximityAlert)
  | [], _ => .ok []
  | t :: ts, storms => do
    let a ← proximityRawStorms bd t storms
    let rest ← proximityRaw bd ts storms
    pure (a ++ rest)

/-- Stable insertion: the new element goes in front of the first element
whose key is not smaller, hence before equal keys arriving later. -/
def insertByKey {α : Type} (key : α → ℚ) (x : α) : List α → List α
  | [] => [x]
  | y :: ys => if key y < key x then y :: insertByKey key x ys else x :: y :: ys

/-- Stable ascending sort by a rational key; extensionally equal to the
ES2019 `Array.prototype.sort` (stable) with the numeric comparators
`(a, b) => a.key - b.key` used at lines 30 and 141. -/
def sortByKey {α : Type} (key : α → ℚ) : List α → List α
  | [] => []
  | x :: xs => insertByKey key x (sortByKey key xs)

/-- `analyzeProximity` (lines 6-31). -/
def analyzeProximity (bd : Coord → List Coord → ℚ)
    (balloonTrails : List BalloonTrail) (stormCones : List StormCone) :
    Except String (List ProximityAlert) := do
  let alerts ← proximityRaw bd balloonTrails stormCones
  pure (sortByKey (fun a => a.closestDistance) alerts)

/-- `getRecentTrajectory` (lines 166-178); `now` is the epoch-ms value of
the internal `new Date()`. -/
def getRecentTrajectory (trail : BalloonTrail) (hours : ℚ) (now : ℚ) :
    BalloonTrail :=
  let cutoffTime := now - hours * 60 * 60 * 1000
  { trail with points := trail.points.filter (fun p => cutoffTime ≤ p.timestamp) }

/-- `slice(-3)` of line 208: the last up-to-3 samples. -/
def recentPointsOf (points : List BalloonDataPoint) : List BalloonDataPoint :=
  points.drop (points.length - 3)

/-- `recentPoints[recentPoints.length - 1]` / `[... - 2]` (lines 209-212):
`undefined` (hence `none`) when fewer than two recent points exist. -/
def lastTwo (points : List BalloonDataPoint) :
    Option (BalloonDataPoint × BalloonDataPoint) :=
  match (recentPointsOf points).reverse with
  | lastP :: secondLastP :: _ => some (lastP, secondLastP)
  | _ => none

/-- Lines 215-217: per-hour velocity of the last sample pair,
`Δcoordinate / ((Δtimestamp ms) / (1000*60*60))`.  (`ℚ` division by zero
yields 0 where JS would yield `±Infinity`/`NaN`; the analysed claims never
involve equal timestamps.) -/
def velocityFrom (lastP secondLastP : BalloonDataPoint) : ℚ × ℚ :=
  let timeDiff := (lastP.timestamp - secondLastP.timestamp) / (1000 * 60 * 60)
  ((lastP.latitude - secondLastP.latitude) / timeDiff,
   (lastP.longitude - secondLastP.longitude) / timeDiff)

/-- The balloon velocity `(latVelocity, lonVelocity)` the predictor
estimates at lines 208-217, as a function of the trail's points. -/
def balloonVelocity (points : List BalloonDataPoint) : Option (ℚ × ℚ) :=
  (lastTwo points).map (fun lp => velocityFrom lp.1 lp.2)

/-- One iteration body of the `for (hours = 1; hours <= 48; ...)` loop
(lines 224-238): the pair `(minDistance, distanceToCone)` at the
extrapolated position.  `distanceToTrack` is `Infinity` without a matching
track (so `Math.min` returns `distanceToCone`), else the abstract
`turf.pointToLineDistance` parameter `ptl`. -/
def futureStep (bd ptl : Coord → List Coord → ℚ) (storm : StormCone)
    (stormTrack : Option StormTrack) (lastP : BalloonDataPoint)
    (vLat vLon : ℚ) (hours : ℚ) : Except String (ℚ × ℚ) := do
  let balloonLat := lastP.latitude + vLat * hours
  let balloonLon := lastP.longitude + vLon * hours
  let balloonPoint : Coord := ⟨balloonLon, balloonLat⟩
  let distanceToCone ← calculateDistanceToPolygon bd balloonPoint storm.geometry
  let minDistance :=
    match stormTrack with
    | some tr => min distanceToCone (ptl balloonPoint tr.coords)
    | none => distanceToCone
  pure (minDistance, distanceToCone)

/-- The projection loop of lines 223-256 over the remaining hour values:
on the first hour within `riskThreshold` it pushes one intersection and
`break`s. -/
def scanHours (bd ptl : Coord → List Coord → ℚ) (storm : StormCone)
    (stormTrack : Option StormTrack) (lastP : BalloonDataPoint)
    (vLat vLon : ℚ) (balloonId : String) (riskThreshold now : ℚ) :
    List ℕ → Except String (List HurricaneIntersection)
  | [] => .ok []
  | h :: rest => do
    let d ← futureStep bd ptl storm stormTrack lastP vLat vLon (h : ℚ)
    if d.1 ≤ riskThreshold then
      .ok [⟨balloonId, storm.stormName, IntersectionKind.future, d.1,
            now + (h : ℚ) * 60 * 60 * 1000, lastP.altitude,
            decide (d.2 ≤ riskThreshold), (h : ℚ)⟩]
    else scanHours bd ptl storm stormTrack lastP vLat vLon balloonId
           riskThreshold now rest

/-- The hour values 1, 2, ..., 48 of the projection loop. -/
def hoursRange : List ℕ :=
  [1, 2, 3, 4, 5, 6, 7, 8, 9, 10, 11, 12, 13, 14, 15, 16, 17, 18, 19, 20,
   21, 22, 23, 24, 25, 26, 27, 28, 29, 30, 31, 32, 33, 34, 35, 36, 37, 38,
   39, 40, 41, 42, 43, 44, 45, 46, 47, 48]

/-- `analyzeFutureTrajectoryIntersections` (lines 196-259); `now` models
the internal `new Date()` (epoch ms). -/
def analyzeFutureTrajectoryIntersections (bd ptl : Coord → List Coord → ℚ)
    (balloonTrail : BalloonTrail) (storm : StormCone)
    (stormTracks : List StormTrack) (riskThreshold now : ℚ) :
    Except String (List HurricaneIntersection) :=
  if balloonTrail.points.length < 2 then .ok []
  else
    match lastTwo balloonTrail.points with
    | none => .ok []
    | some (lastP, secondLastP) =>
      let v := velocityFrom lastP secondLastP
      let stormTrack :=
        stormTracks.find? (fun track => track.stormName == storm.stormName)
      scanHours bd ptl storm stormTrack lastP v.1 v.2 balloonTrail.balloonId
        riskThreshold now hoursRange

/-- The `trail.points.forEach` of `analyzeHurricaneIntersections`
(lines 111-133): one intersection per sample within the threshold,
classified past/future by `hoursFromNow ≤ 0`. -/
def sampleLoop (bd : Coord → List Coord → ℚ) (trailId : String)
    (storm : StormCone) (riskThreshold now : ℚ) :
    List BalloonDataPoint → Except String (List HurricaneIntersection)
  | [] => .ok []
  | point :: ps => do
    let pt := coordOf point
    let distance ← calculateDistanceToPolygon bd pt storm.geometry
    let cur ←
      if distance ≤ riskThreshold then do
        let hoursFromNow := (point.timestamp - now) / (1000 * 60 * 60)
        let intersectionType : IntersectionKind :=
          if hoursFromNow ≤ 0 then .past else .future
        let inside ← booleanPointInPolygon pt storm.geometry
        pure [⟨trailId, storm.stormName, intersectionType, distance,
               point.timestamp, point.altitude, inside, hoursFromNow⟩]
      else pure ([] : List HurricaneIntersection)
    let rest ← sampleLoop bd trailId storm riskThreshold now ps
    pure (cur ++ rest)

/-- The inner `stormCones.forEach` of `analyzeHurricaneIntersections`
(lines 109-138): sample intersections followed by the future-trajectory
ones. -/
def hiStormLoop (bd ptl : Coord → List Coord → ℚ) (trail : BalloonTrail)
    (stormTracks : List StormTrack) (riskThreshold now : ℚ) :
    List StormCone → Except String (List HurricaneIntersection)
  | [] => .ok []
  | storm :: ss => do
    let samples ← sampleLoop bd trail.balloonId storm riskThreshold now trail.points
    let future ← analyzeFutureTrajectoryIntersections bd ptl trail storm
      stormTracks riskThreshold now
    let rest ← hiStormLoop bd ptl trail stormTracks riskThreshold now ss
    pure (samples ++ future ++ rest)

/-- The outer `balloonTrails.forEach` of `analyzeHurricaneIntersections`. -/
def hiTrailLoop (bd ptl : Coord → List Coord → ℚ) (storms : List StormCone)
    (stormTracks : List StormTrack) (riskThreshold now : ℚ) :
    List BalloonTrail → Except String (List HurricaneIntersection)
  | [] => .ok []
  | t :: ts => do
    let a ← hiStormLoop bd ptl t stormTracks riskThreshold now storms
    let rest ← hiTrailLoop bd ptl storms stormTracks riskThreshold now ts
    pure (a ++ rest)

/-- `analyzeHurricaneIntersections` (lines 99-142); `now` models the
internal `new Date()` of line 106. -/
def analyzeHurricaneIntersections (bd ptl : Coord → List Coord → ℚ)
    (balloonTrails : List BalloonTrail) (stormCones : List StormCone)
    (stormTracks : List StormTrack) (riskThreshold now : ℚ) :
    Except String (List HurricaneIntersection) := do
  let intersections ← hiTrailLoop bd ptl stormCones stormTracks riskThreshold
    now balloonTrails
  pure (sortByKey (fun i => i.hoursFromNow) intersections)

/-- `getPastIntersections` (lines 144-146). -/
def getPastIntersections (intersections : List HurricaneIntersection) :
    List HurricaneIntersection :=
  intersections.filter (fun i => i.intersectionType = IntersectionKind.past)

/-- `getFutureIntersections` (lines 148-150). -/
def getFutureIntersections (intersections : List HurricaneIntersection) :
    List HurricaneIntersection :=
  intersections.filter (fun i => i.intersectionType = IntersectionKind.future)

/-- Modelled from the spec (§4.5 Step 1), for comparison with the code's
`balloonVelocity`: take the last up-to-5 samples and average the per-hour
latitude/longitude deltas across consecutive sample pairs, dividing by
sample count − 1 (not elapsed wall time); `none` below two samples. -/
def specVelocity (points : List BalloonDataPoint) : Option (ℚ × ℚ) :=
  let window := points.drop (points.length - 5)
  match window with
  | [] => none
  | [_] => none
  | w =>
    let pairs := w.zip w.tail
    let n : ℚ := (w.length : ℚ) - 1
    some ((pairs.map (fun pr => pr.2.latitude - pr.1.latitude)).sum / n,
          (pairs.map (fun pr => pr.2.longitude - pr.1.longitude)).sum / n)

/-- Modelled from the spec (§4.5 Step 2): the forward sampling times 1h to
48h in 0.5h steps. -/
def specTimes : List ℚ := (List.range 95).map (fun k => 1 + (k : ℚ) / 2)

/-- Modelled from the spec (§4.5 Step 2): distance from the linearly
extrapolated balloon position at time `t` to the forecast track, with the
same abstract `turf.pointToLineDistance` parameter `ptl` the code uses. -/
def specTrackDistanceAt (ptl : Coord → List Coord → ℚ)
    (lastP : BalloonDataPoint) (vLat vLon : ℚ) (track : StormTrack)
    (t : ℚ) : ℚ :=
  ptl ⟨lastP.longitude + vLon * t, lastP.latitude + vLat * t⟩ track.coords

/-- Modelled from the spec (§4.5 Step 2): the minimum extrapolated distance
to the track over the 1h–48h scan. -/
def specMinTrackDistance (ptl : Coord → List Coord → ℚ)
    (lastP : BalloonDataPoint) (vLat vLon : ℚ) (track : StormTrack) : ℚ :=
  (specTimes.map (specTrackDistanceAt ptl lastP vLat vLon track)).foldl min
    (specTrackDistanceAt ptl lastP vLat vLon track 1)

/-- Modelled from the spec (§4.5 Step 2): `isConverging = minDistance <
currentDistance`, one of the four gate conditions the decision rule
requires for emission; `currentDistance` is the distance from the last
sample to the track. -/
def specIsConverging (ptl : Coord → List Coord → ℚ)
    (lastP : BalloonDataPoint) (vLat vLon : ℚ) (track : StormTrack) : Bool :=
  specMinTrackDistance ptl lastP vLat vLon track <
    ptl (coordOf lastP) track.coords

/-! ## Concrete fixtures

Shared concrete inputs for witnesses and counterexamples.  `bdConst` and
`ptlConst` instantiate the abstract haversine composites with constant
functions; every concrete emission decision below is driven either by the
exact point-in-polygon test (distance 0 inside the cone) or by these
constants, and the stationary-balloon fixtures make every extrapolated
position coincide, so for them any instantiation yields equal
current/minimum track distances. -/

/-- Stand-in for `turf.distance ∘ nearestPointOnLine`: constant 50 km. -/
def bdConst : Coord → List Coord → ℚ := fun _ _ => 50

/-- Stand-in for `turf.pointToLineDistance`: constant 500 km. -/
def ptlConst : Coord → List Coord → ℚ := fun _ _ => 500

/-- A closed square ring around the origin (lon/lat corners ±1). -/
def squareRing : List Coord :=
  [⟨-1, -1⟩, ⟨1, -1⟩, ⟨1, 1⟩, ⟨-1, 1⟩, ⟨-1, -1⟩]

/-- A storm cone containing the origin. -/
def stormSq : StormCone := ⟨"STORMX", .polygon [squareRing]⟩

/-- A closed square ring far from the origin (corners lon/lat 10/11). -/
def farRing : List Coord :=
  [⟨10, 10⟩, ⟨11, 10⟩, ⟨11, 11⟩, ⟨10, 11⟩, ⟨10, 10⟩]

/-- A storm cone not containing the origin. -/
def stormFar : StormCone := ⟨"FARSTORM", .polygon [farRing]⟩

/-- A forecast track correlated with `stormSq` by name. -/
def trackX : StormTrack := ⟨"STORMX", [⟨10, 10⟩, ⟨20, 20⟩]⟩

/-- A balloon sample at the origin at epoch-ms time `t`. -/
def originAt (t : ℚ) : BalloonDataPoint :=
  ⟨0, 0, 15000, t, "b0"⟩

/-- A stationary two-sample trail at the origin (samples one hour apart). -/
def trail2 : BalloonTrail :=
  ⟨"b0", [originAt 0, originAt 3600000], "#0066cc"⟩

/-- A stationary three-sample trail at the origin. -/
def trail3 : BalloonTrail :=
  ⟨"b0", [originAt 0, originAt 3600000, originAt 7200000], "#0066cc"⟩

/-- A single-sample trail at the origin. -/
def trail1 : BalloonTrail := ⟨"b0", [originAt 0], "#0066cc"⟩

/-- A five-sample hourly trail whose latitude jumps only on the final step:
latitudes 0, 0, 0, 0, 4 at hours 0..4. -/
def trail5 : BalloonTrail :=
  ⟨"b5",
   [⟨0, 0, 15000, 0, "b5"⟩, ⟨0, 0, 15000, 3600000, "b5"⟩,
    ⟨0, 0, 15000, 7200000, "b5"⟩, ⟨0, 0, 15000, 10800000, "b5"⟩,
    ⟨4, 0, 15000, 14400000, "b5"⟩], "#0066cc"⟩

/-- A malformed storm: its polygon consists of one empty ring. -/
def stormAlpha : StormCone := ⟨"ALPHA", .polygon [[]]⟩

/-- A second malformed storm, differing from `stormAlpha` only in name. -/
def stormBravo : StormCone := ⟨"BRAVO", .polygon [[]]⟩

/-! ## Helper lemmas -/

theorem exceptBind_ok_iff {ε α β : Type} (ma : Except ε α) (f : α → Except ε β)
    (b : β) : ma >>= f = Except.ok b ↔ ∃ a, ma = Except.ok a ∧ f a = Except.ok b := by
  cases ma with
  | error e => simp [Bind.bind, Except.bind]
  | ok a => simp [Bind.bind, Except.bind]

theorem exceptPure_eq_ok {ε β : Type} (b c : β) :
    (pure b : Except ε β) = Except.ok c ↔ b = c := by
  simp [pure, Except.pure]

theorem mem_insertByKey {α : Type} (key : α → ℚ) (x a : α) (l : List α) :
    a ∈ insertByKey key x l ↔ a = x ∨ a ∈ l := by
  induction l with
  | nil => simp [insertByKey]
  | cons y ys ih =>
    simp only [insertByKey]
    split
    · simp only [List.mem_cons, ih]
      tauto
    · simp only [List.mem_cons]

theorem mem_sortByKey {α : Type} (key : α → ℚ) (a : α) (l : List α) :
    a ∈ sortByKey key l ↔ a ∈ l := by
  induction l with
  | nil => simp [sortByKey]
  | cons y ys ih => simp [sortByKey, mem_insertByKey, ih]

theorem pairwise_insertByKey {α : Type} (key : α → ℚ) (x : α) (l : List α)
    (h : l.Pairwise (fun a b => key a ≤ key b)) :
    (insertByKey key x l).Pairwise (fun a b => key a ≤ key b) := by
  induction l with
  | nil => simp [insertByKey]
  | cons y ys ih =>
    rw [List.pairwise_cons] at h
    simp only [insertByKey]
    split
    · rename_i hlt
      rw [List.pairwise_cons]
      refine ⟨?_, ih h.2⟩
      intro b hb
      rcases (mem_insertByKey key x b ys).mp hb with rfl | hb
      · exact le_of_lt hlt
      · exact h.1 b hb
    · rename_i hnlt
      rw [List.pairwise_cons]
      refine ⟨?_, List.pairwise_cons.mpr h⟩
      intro b hb
      rcases List.mem_cons.mp hb with rfl | hb
      · exact le_of_not_lt hnlt
      · exact le_trans (le_of_not_lt hnlt) (h.1 b hb)

theorem pairwise_sortByKey {α : Type} (key : α → ℚ) (l : List α) :
    (sortByKey key l).Pairwise (fun a b => key a ≤ key b) := by
  induction l with
  | nil => simp [sortByKey]
  | cons y ys ih => exact pairwise_insertByKey key y (sortByKey key ys) ih

theorem filter_insertByKey {α : Type} (key : α → ℚ) (d : ℚ) (x : α) (l : List α) :
    (insertByKey key x l).filter (fun a => decide (key a = d)) =
      if key x = d then x :: l.filter (fun a => decide (key a = d))
      else l.filter (fun a => decide (key a = d)) := by
  induction l with
  | nil =>
    simp only [insertByKey, List.filter]
    by_cases hx : key x = d
    · simp [hx]
    · simp [hx]
  | cons y ys ih =>
    simp only [insertByKey]
    split
    · rename_i hlt
      rw [List.filter_cons, List.filter_cons]
      by_cases hx : key x = d
      · have hy : ¬ key y = d := by
          intro hy
          rw [hy, hx] at hlt
          exact lt_irrefl d hlt
        simp only [hx, if_pos, hy, decide_eq_true_eq, if_neg, decide_eq_false hy,
          Bool.false_eq_true, ite_false, ih, if_pos hx]
      · by_cases hy : key y = d
        · simp [hy, hx, ih]
        · simp [hy, hx, ih]
    · rw [List.filter_cons]
      by_cases hx : key x = d
      · simp [hx]
      · simp [hx]

theorem filter_sortByKey {α : Type} (key : α → ℚ) (d : ℚ) (l : List α) :
    (sortByKey key l).filter (fun a => decide (key a = d)) =
      l.filter (fun a => decide (key a = d)) := by
  induction l with
  | nil => rfl
  | cons y ys ih =>
    simp only [sortByKey]
    rw [filter_insertByKey, List.filter_cons]
    by_cases hy : key y = d
    · simp [hy, ih]
    · simp [hy, ih]

theorem alertsForTrailStorm_le (bd : Coord → List Coord → ℚ)
    (trail : BalloonTrail) (storm : StormCone) (l : List ProximityAlert)
    (h : alertsForTrailStorm bd trail storm = .ok l) :
    ∀ a ∈ l, a.closestDistance ≤ RISK_THRESHOLD_KM := by
  unfold alertsForTrailStorm at h
  rw [exceptBind_ok_iff] at h
  obtain ⟨r, -, h⟩ := h
  match r with
  | none =>
    rw [exceptPure_eq_ok] at h
    subst h
    intro a ha
    exact absurd ha (List.not_mem_nil a)
  | some (point, distance) =>
    simp only at h
    split at h
    · rename_i hle
      rw [exceptBind_ok_iff] at h
      obtain ⟨inside, -, h⟩ := h
      rw [exceptPure_eq_ok] at h
      subst h
      intro a ha
      rcases List.mem_singleton.mp ha with rfl
      exact hle
    · rw [exceptPure_eq_ok] at h
      subst h
      intro a ha
      exact absurd ha (List.not_mem_nil a)

theorem proximityRawStorms_le (bd : Coord → List Coord → ℚ)
    (trail : BalloonTrail) :
    ∀ (ss : List StormCone) (l : List ProximityAlert),
      proximityRawStorms bd trail ss = .ok l →
      ∀ a ∈ l, a.closestDistance ≤ RISK_THRESHOLD_KM := by
  intro ss
  induction ss with
  | nil =>
    intro l h
    simp only [proximityRawStorms] at h
    cases h
    intro a ha
    exact absurd ha (List.not_mem_nil a)
  | cons s ss ih =>
    intro l h
    simp only [proximityRawStorms] at h
    rw [exceptBind_ok_iff] at h
    obtain ⟨cur, hcur, h⟩ := h
    rw [exceptBind_ok_iff] at h
    obtain ⟨rest, hrest, h⟩ := h
    rw [exceptPure_eq_ok] at h
    subst h
    intro a ha
    rcases List.mem_append.mp ha with ha | ha
    · exact alertsForTrailStorm_le bd trail s cur hcur a ha
    · exact ih rest hrest a ha

theorem proximityRaw_le (bd : Coord → List Coord → ℚ)
    (storms : List StormCone) :
    ∀ (ts : List BalloonTrail) (l : List ProximityAlert),
      proximityRaw bd ts storms = .ok l →
      ∀ a ∈ l, a.closestDistance ≤ RISK_THRESHOLD_KM := by
  intro ts
  induction ts with
  | nil =>
    intro l h
    simp only [proximityRaw] at h
    cases h
    intro a ha
    exact absurd ha (List.not_mem_nil a)
  | cons t ts ih =>
    intro l h
    simp only [proximityRaw] at h
    rw [exceptBind_ok_iff] at h
    obtain ⟨cur, hcur, h⟩ := h
    rw [exceptBind_ok_iff] at h
    obtain ⟨rest, hrest, h⟩ := h
    rw [exceptPure_eq_ok] at h
    subst h
    intro a ha
    rcases List.mem_append.mp ha with ha | ha
    · exact proximityRawStorms_le bd t storms cur hcur a ha
    · exact ih rest hrest a ha

/-- The past/future classification invariant carried by every produced
intersection. -/
def kindMatchesSign (i : HurricaneIntersection) : Prop :=
  i.intersectionType = IntersectionKind.past ↔ i.hoursFromNow ≤ 0

theorem sampleLoop_kind (bd : Coord → List Coord → ℚ) (trailId : String)
    (storm : StormCone) (riskThreshold now : ℚ) :
    ∀ (ps : List BalloonDataPoint) (l : List HurricaneIntersection),
      sampleLoop bd trailId storm riskThreshold now ps = .ok l →
      ∀ i ∈ l, kindMatchesSign i := by
  intro ps
  induction ps with
  | nil =>
    intro l h
    simp only [sampleLoop] at h
    cases h
    intro i hi
    exact absurd hi (List.not_mem_nil i)
  | cons point ps ih =>
    intro l h
    simp only [sampleLoop] at h
    rw [exceptBind_ok_iff] at h
    obtain ⟨d, -, h⟩ := h
    split at h
    · rw [exceptBind_ok_iff] at h
      obtain ⟨inside, -, h⟩ := h
      rw [exceptBind_ok_iff] at h
      obtain ⟨cur, hcur, h⟩ := h
      rw [exceptBind_ok_iff] at h
      obtain ⟨rest, hrest, h⟩ := h
      rw [exceptPure_eq_ok] at hcur
      rw [exceptPure_eq_ok] at h
      subst hcur
      subst h
      intro i hi
      rcases List.mem_append.mp hi with hi | hi
      · rcases List.mem_singleton.mp hi with rfl
        unfold kindMatchesSign
        by_cases hsign : (point.timestamp - now) / (1000 * 60 * 60) ≤ 0
        · simp [hsign]
        · simp [hsign]
      · exact ih rest hrest i hi
    · rw [exceptBind_ok_iff] at h
      obtain ⟨cur, hcur, h⟩ := h
      rw [exceptBind_ok_iff] at h
      obtain ⟨rest, hrest, h⟩ := h
      rw [exceptPure_eq_ok] at hcur
      rw [exceptPure_eq_ok] at h
      subst hcur
      subst h
      intro i hi
      rcases List.mem_append.mp hi with hi | hi
      · exact absurd hi (List.not_mem_nil i)
      · exact ih rest hrest i hi

theorem scanHours_kind (bd ptl : Coord → List Coord → ℚ) (storm : StormCone)
    (stormTrack : Option StormTrack) (lastP : BalloonDataPoint)
    (vLat vLon : ℚ) (balloonId : String) (riskThreshold now : ℚ) :
    ∀ (hs : List ℕ), (∀ h ∈ hs, 1 ≤ h) →
      ∀ (l : List HurricaneIntersection),
        scanHours bd ptl storm stormTrack lastP vLat vLon balloonId
          riskThreshold now hs = .ok l →
        ∀ i ∈ l, kindMatchesSign i := by
  intro hs
  induction hs with
  | nil =>
    intro _ l h
    simp only [scanHours] at h
    cases h
    intro i hi
    exact absurd hi (List.not_mem_nil i)
  | cons h0 hs ih =>
    intro hpos l h
    simp only [scanHours] at h
    rw [exceptBind_ok_iff] at h
    obtain ⟨d, -, h⟩ := h
    split at h
    · cases h
      intro i hi
      rcases List.mem_singleton.mp hi with rfl
      unfold kindMatchesSign
      have h1 : (1 : ℚ) ≤ (h0 : ℚ) := by
        exact_mod_cast hpos h0 (List.mem_cons_self h0 hs)
      have hns : ¬ ((h0 : ℚ) ≤ 0) := by linarith
      simp [hns]
    · exact ih (fun a ha => hpos a (List.mem_cons_of_mem h0 ha)) l h

theorem futureTrajectory_kind (bd ptl : Coord → List Coord → ℚ)
    (trail : BalloonTrail) (storm : StormCone) (tracks : List StormTrack)
    (riskThreshold now : ℚ) (l : List HurricaneIntersection)
    (h : analyzeFutureTrajectoryIntersections bd ptl trail storm tracks
      riskThreshold now = .ok l) :
    ∀ i ∈ l, kindMatchesSign i := by
  unfold analyzeFutureTrajectoryIntersections at h
  split at h
  · cases h
    intro i hi
    exact absurd hi (List.not_mem_nil i)
  · split at h
    · cases h
      intro i hi
      exact absurd hi (List.not_mem_nil i)
    · exact scanHours_kind bd ptl storm _ _ _ _ _ riskThreshold now hoursRange
        (by decide) l h

theorem hiStormLoop_kind (bd ptl : Coord → List Coord → ℚ)
    (trail : BalloonTrail) (stormTracks : List StormTrack)
    (riskThreshold now : ℚ) :
    ∀ (ss : List StormCone) (l : List HurricaneIntersection),
      hiStormLoop bd ptl trail stormTracks riskThreshold now ss = .ok l →
      ∀ i ∈ l, kindMatchesSign i := by
  intro ss
  induction ss with
  | nil =>
    intro l h
    simp only [hiStormLoop] at h
    cases h
    intro i hi
    exact absurd hi (List.not_mem_nil i)
  | cons s ss ih =>
    intro l h
    simp only [hiStormLoop] at h
    rw [exceptBind_ok_iff] at h
    obtain ⟨samples, hsamples, h⟩ := h
    rw [exceptBind_ok_iff] at h
    obtain ⟨future, hfuture, h⟩ := h
    rw [exceptBind_ok_iff] at h
    obtain ⟨rest, hrest, h⟩ := h
    rw [exceptPure_eq_ok] at h
    subst h
    intro i hi
    rcases List.mem_append.mp hi with hi | hi
    · rcases List.mem_append.mp hi with hi | hi
      · exact sampleLoop_kind bd trail.balloonId s riskThreshold now
          trail.points samples hsamples i hi
      · exact futureTrajectory_kind bd ptl trail s stormTracks riskThreshold
          now future hfuture i hi
    · exact ih rest hrest i hi

theorem hiTrailLoop_kind (bd ptl : Coord → List Coord → ℚ)
    (storms : List StormCone) (stormTracks : List StormTrack)
    (riskThreshold now : ℚ) :
    ∀ (ts : List BalloonTrail) (l : List HurricaneIntersection),
      hiTrailLoop bd ptl storms stormTracks riskThreshold now ts = .ok l →
      ∀ i ∈ l, kindMatchesSign i := by
  intro ts
  induction ts with
  | nil =>
    intro l h
    simp only [hiTrailLoop] at h
    cases h
    intro i hi
    exact absurd hi (List.not_mem_nil i)
  | cons t ts ih =>
    intro l h
    simp only [hiTrailLoop] at h
    rw [exceptBind_ok_iff] at h
    obtain ⟨cur, hcur, h⟩ := h
    rw [exceptBind_ok_iff] at h
    obtain ⟨rest, hrest, h⟩ := h
    rw [exceptPure_eq_ok] at h
    subst h
    intro i hi
    rcases List.mem_append.mp hi with hi | hi
    · exact hiStormLoop_kind bd ptl t stormTracks riskThreshold now storms
        cur hcur i hi
    · exact ih rest hrest i hi

theorem scanHours_length (bd ptl : Coord → List Coord → ℚ) (storm : StormCone)
    (stormTrack : Option StormTrack) (lastP : BalloonDataPoint)
    (vLat vLon : ℚ) (balloonId : String) (riskThreshold now : ℚ) :
    ∀ (hs : List ℕ) (l : List HurricaneIntersection),
      scanHours bd ptl storm stormTrack lastP vLat vLon balloonId
        riskThreshold now hs = .ok l →
      l.length ≤ 1 := by
  intro hs
  induction hs with
  | nil =>
    intro l h
    simp only [scanHours] at h
    cases h
    simp
  | cons h0 hs ih =>
    intro l h
    simp only [scanHours] at h
    rw [exceptBind_ok_iff] at h
    obtain ⟨d, -, h⟩ := h
    split at h
    · cases h
      simp
    · exact ih l h

theorem scanHours_ne_nil_iff (bd ptl : Coord → List Coord → ℚ)
    (storm : StormCone) (stormTrack : Option StormTrack)
    (lastP : BalloonDataPoint) (vLat vLon : ℚ) (balloonId : String)
    (riskThreshold now : ℚ) :
    ∀ (hs : List ℕ) (l : List HurricaneIntersection),
      scanHours bd ptl storm stormTrack lastP vLat vLon balloonId
        riskThreshold now hs = .ok l →
      (l ≠ [] ↔ ∃ hr ∈ hs, ∃ m c,
        futureStep bd ptl storm stormTrack lastP vLat vLon (hr : ℚ) =
          .ok (m, c) ∧ m ≤ riskThreshold) := by
  intro hs
  induction hs with
  | nil =>
    intro l h
    simp only [scanHours] at h
    cases h
    simp
  | cons h0 hs ih =>
    intro l h
    simp only [scanHours] at h
    rw [exceptBind_ok_iff] at h
    obtain ⟨d, hd, h⟩ := h
    split at h
    · rename_i hle
      cases h
      constructor
      · intro _
        exact ⟨h0, List.mem_cons_self h0 hs, d.1, d.2, by rwa [Prod.mk.eta], hle⟩
      · intro _
        simp
    · rename_i hnle
      have hiff := ih l h
      rw [hiff]
      constructor
      · intro ⟨hr, hmem, m, c, hstep, hm⟩
        exact ⟨hr, List.mem_cons_of_mem h0 hmem, m, c, hstep, hm⟩
      · intro ⟨hr, hmem, m, c, hstep, hm⟩
        rcases List.mem_cons.mp hmem with rfl | hmem
        · rw [hd] at hstep
          cases hstep
          exact absurd hm hnle
        · exact ⟨hr, hmem, m, c, hstep, hm⟩

theorem scanHours_cons_hit (bd ptl : Coord → List Coord → ℚ)
    (storm : StormCone) (stormTrack : Option StormTrack)
    (lastP : BalloonDataPoint) (vLat vLon : ℚ) (balloonId : String)
    (riskThreshold now : ℚ) (h0 : ℕ) (hs : List ℕ) (m c : ℚ)
    (hstep : futureStep bd ptl storm stormTrack lastP vLat vLon (h0 : ℚ) =
      .ok (m, c))
    (hm : m ≤ riskThreshold) :
    scanHours bd ptl storm stormTrack lastP vLat vLon balloonId riskThreshold
      now (h0 :: hs) =
      .ok [⟨balloonId, storm.stormName, IntersectionKind.future, m,
            now + (h0 : ℚ) * 60 * 60 * 1000, lastP.altitude,
            decide (c ≤ riskThreshold), (h0 : ℚ)⟩] := by
  simp only [scanHours]
  rw [hstep]
  simp [Bind.bind, Except.bind, hm]

theorem lastTwo_eq (pts : List BalloonDataPoint)
    (lastP secondLastP : BalloonDataPoint) (rest : List BalloonDataPoint)
    (h : pts.reverse = lastP :: secondLastP :: rest) :
    lastTwo pts = some (lastP, secondLastP) := by
  have hlen : pts.length = rest.length + 2 := by
    have hc := congrArg List.length h
    simpa using hc
  unfold lastTwo recentPointsOf
  rw [List.reverse_drop, h]
  obtain ⟨k, hk⟩ : ∃ k, pts.length - (pts.length - 3) = k + 2 :=
    ⟨pts.length - (pts.length - 3) - 2, by omega⟩
  rw [hk]
  simp only [List.take_succ_cons]

theorem predictor_first_hit (bd ptl : Coord → List Coord → ℚ)
    (trail : BalloonTrail) (storm : StormCone) (tracks : List StormTrack)
    (riskThreshold now : ℚ) (lastP secondLastP : BalloonDataPoint)
    (rest : List BalloonDataPoint)
    (hrev : trail.points.reverse = lastP :: secondLastP :: rest) (m c : ℚ)
    (hstep : futureStep bd ptl storm
      (tracks.find? (fun track => track.stormName == storm.stormName)) lastP
      (velocityFrom lastP secondLastP).1 (velocityFrom lastP secondLastP).2
      ((1 : ℕ) : ℚ) = .ok (m, c))
    (hm : m ≤ riskThreshold) :
    analyzeFutureTrajectoryIntersections bd ptl trail storm tracks
      riskThreshold now =
      .ok [⟨trail.balloonId, storm.stormName, IntersectionKind.future, m,
            now + ((1 : ℕ) : ℚ) * 60 * 60 * 1000, lastP.altitude,
            decide (c ≤ riskThreshold), ((1 : ℕ) : ℚ)⟩] := by
  have hlt := lastTwo_eq trail.points lastP secondLastP rest hrev
  have hlen : ¬ (trail.points.length < 2) := by
    have hc := congrArg List.length hrev
    simp at hc
    omega
  unfold analyzeFutureTrajectoryIntersections
  rw [if_neg hlen, hlt]
  exact scanHours_cons_hit bd ptl storm _ lastP _ _ trail.balloonId
    riskThreshold now 1 hoursRange.tail m c hstep hm

theorem foldl_min_replicate (cst : ℚ) :
    ∀ n : ℕ, (List.replicate n cst).foldl min cst = cst := by
  intro n
  induction n with
  | zero => rfl
  | succ k ih => simp [List.replicate_succ, List.foldl_cons, min_self, ih]

theorem specMinTrackDistance_const (lastP : BalloonDataPoint)
    (vLat vLon : ℚ) (track : StormTrack) (cst : ℚ) :
    specMinTrackDistance (fun _ _ => cst) lastP vLat vLon track = cst := by
  unfold specMinTrackDistance specTrackDistanceAt
  simp only [List.map_const']
  exact foldl_min_replicate cst specTimes.length

theorem specIsConverging_const (lastP : BalloonDataPoint) (vLat vLon : ℚ)
    (track : StormTrack) (cst : ℚ) :
    specIsConverging (fun _ _ => cst) lastP vLat vLon track = false := by
  unfold specIsConverging
  rw [specMinTrackDistance_const]
  simp

/-- Evaluation of the predictor on the stationary two-sample trail inside
the cone, with no track: the first projection hour already hits. -/
theorem predictorEval2 (now : ℚ) :
    analyzeFutureTrajectoryIntersections bdConst ptlConst trail2 stormSq []
      100 now =
      .ok [⟨"b0", "STORMX", IntersectionKind.future, 0,
            now + ((1 : ℕ) : ℚ) * 60 * 60 * 1000, 15000,
            decide ((0 : ℚ) ≤ 100), ((1 : ℕ) : ℚ)⟩] := by
  refine predictor_first_hit bdConst ptlConst trail2 stormSq [] 100 now
    (originAt 3600000) (originAt 0) [] (by norm_num [trail2, originAt]) 0 0
    ?_ (by norm_num)
  norm_num [futureStep, velocityFrom, originAt, calculateDistanceToPolygon,
    booleanPointInPolygon, inPolyRings, inHoles, inRing, inRingLoop, stormSq,
    squareRing, List.find?, bdConst, ptlConst, Bind.bind, Except.bind, pure,
    Except.pure]

/-- Evaluation of the predictor on the stationary three-sample trail inside
the cone, with no track. -/
theorem predictorEval3 (now : ℚ) :
    analyzeFutureTrajectoryIntersections bdConst ptlConst trail3 stormSq []
      100 now =
      .ok [⟨"b0", "STORMX", IntersectionKind.future, 0,
            now + ((1 : ℕ) : ℚ) * 60 * 60 * 1000, 15000,
            decide ((0 : ℚ) ≤ 100), ((1 : ℕ) : ℚ)⟩] := by
  refine predictor_first_hit bdConst ptlConst trail3 stormSq [] 100 now
    (originAt 7200000) (originAt 3600000) [originAt 0]
    (by norm_num [trail3, originAt]) 0 0 ?_ (by norm_num)
  norm_num [futureStep, velocityFrom, originAt, calculateDistanceToPolygon,
    booleanPointInPolygon, inPolyRings, inHoles, inRing, inRingLoop, stormSq,
    squareRing, List.find?, bdConst, ptlConst, Bind.bind, Except.bind, pure,
    Except.pure]

/-- Evaluation of the predictor on the stationary three-sample trail inside
the cone, with a matching forecast track present: the emission is still
driven by the cone distance 0 alone. -/
theorem predictorEvalTrack (now : ℚ) :
    analyzeFutureTrajectoryIntersections bdConst ptlConst trail3 stormSq
      [trackX] 100 now =
      .ok [⟨"b0", "STORMX", IntersectionKind.future, 0,
            now + ((1 : ℕ) : ℚ) * 60 * 60 * 1000, 15000,
            decide ((0 : ℚ) ≤ 100), ((1 : ℕ) : ℚ)⟩] := by
  refine predictor_first_hit bdConst ptlConst trail3 stormSq [trackX] 100 now
    (originAt 7200000) (originAt 3600000) [originAt 0]
    (by norm_num [trail3, originAt]) 0 0 ?_ (by norm_num)
  norm_num [futureStep, velocityFrom, originAt, calculateDistanceToPolygon,
    booleanPointInPolygon, inPolyRings, inHoles, inRing, inRingLoop, stormSq,
    squareRing, trackX, List.find?, bdConst, ptlConst, Bind.bind, Except.bind,
    pure, Except.pure]

/-- Evaluation of `analyzeProximity` on the three-sample trail against the
far storm (boundary distance 50 under `bdConst`) and the containing storm
(distance 0): the unsorted generation order. -/
theorem proxRawEval :
    proximityRaw bdConst [trail3] [stormFar, stormSq] =
      .ok [⟨"b0", "FARSTORM", 50, 0, 15000, false⟩,
           ⟨"b0", "STORMX", 0, 0, 15000, true⟩] := by
  norm_num [proximityRaw, proximityRawStorms, alertsForTrailStorm,
    findClosestPointToStorm, closestLoop, calculateDistanceToPolygon,
    booleanPointInPolygon, inPolyRings, inHoles, inRing, inRingLoop,
    polygonCoordsOf, lineStringChecked, stormFar, farRing, stormSq, squareRing,
    trail3, originAt, bdConst, RISK_THRESHOLD_KM, coordOf, Bind.bind,
    Except.bind, pure, Except.pure]

/-- The sorted output for the same fixture. -/
theorem proxEval :
    analyzeProximity bdConst [trail3] [stormFar, stormSq] =
      .ok [⟨"b0", "STORMX", 0, 0, 15000, true⟩,
           ⟨"b0", "FARSTORM", 50, 0, 15000, false⟩] := by
  have hraw := proxRawEval
  unfold analyzeProximity
  rw [hraw]
  norm_num [sortByKey, insertByKey, Bind.bind, Except.bind, pure, Except.pure]

/-- Output of `analyzeHurricaneIntersections` on the three-sample fixture
when the internal clock reads 0 (the sample at 3600000 ms classifies as
future, and the predictor contributes an identical intersection). -/
def hiOut0 : List HurricaneIntersection :=
  [⟨"b0", "STORMX", IntersectionKind.past, 0, 0, 15000, true, 0⟩,
   ⟨"b0", "STORMX", IntersectionKind.future, 0, 3600000, 15000, true, 1⟩,
   ⟨"b0", "STORMX", IntersectionKind.future, 0, 3600000, 15000, true, 1⟩,
   ⟨"b0", "STORMX", IntersectionKind.future, 0, 7200000, 15000, true, 2⟩]

/-- Output of the same call when the internal clock reads 3600000: the
same snapshot inputs classify differently. -/
def hiOut1 : List HurricaneIntersection :=
  [⟨"b0", "STORMX", IntersectionKind.past, 0, 0, 15000, true, -1⟩,
   ⟨"b0", "STORMX", IntersectionKind.past, 0, 3600000, 15000, true, 0⟩,
   ⟨"b0", "STORMX", IntersectionKind.future, 0, 7200000, 15000, true, 1⟩,
   ⟨"b0", "STORMX", IntersectionKind.future, 0, 7200000, 15000, true, 1⟩]

theorem hiEval0 :
    analyzeHurricaneIntersections bdConst ptlConst [trail3] [stormSq] [] 100 0 =
      .ok hiOut0 := by
  have hf := predictorEval3 0
  simp only [analyzeHurricaneIntersections, hiTrailLoop, hiStormLoop, hf]
  norm_num [sampleLoop, trail3, originAt, calculateDistanceToPolygon,
    booleanPointInPolygon, inPolyRings, inHoles, inRing, inRingLoop, stormSq,
    squareRing, coordOf, sortByKey, insertByKey, hiOut0, Bind.bind,
    Except.bind, pure, Except.pure]

theorem hiEval1 :
    analyzeHurricaneIntersections bdConst ptlConst [trail3] [stormSq] [] 100
      3600000 = .ok hiOut1 := by
  have hf := predictorEval3 3600000
  simp only [analyzeHurricaneIntersections, hiTrailLoop, hiStormLoop, hf]
  norm_num [sampleLoop, trail3, originAt, calculateDistanceToPolygon,
    booleanPointInPolygon, inPolyRings, inHoles, inRing, inRingLoop, stormSq,
    squareRing, coordOf, sortByKey, insertByKey, hiOut1, Bind.bind,
    Except.bind, pure, Except.pure]

/-! ## Claims -/

/-- C1 (amended): the future-trajectory predictor emits an intersection iff
some projection hour 1..48 has extrapolated minimum distance (to the cone,
and to the matching track when one exists) within the threshold — the
first such hour; no convergence condition takes part in the decision. -/
theorem c1_amended (bd ptl : Coord → List Coord → ℚ) (trail : BalloonTrail)
    (storm : StormCone) (tracks : List StormTrack) (riskThreshold now : ℚ)
    (lastP secondLastP : BalloonDataPoint)
    (hlt : lastTwo trail.points = some (lastP, secondLastP))
    (hlen : 2 ≤ trail.points.length) (out : List HurricaneIntersection)
    (h : analyzeFutureTrajectoryIntersections bd ptl trail storm tracks
      riskThreshold now = .ok out) :
    out ≠ [] ↔ ∃ hr ∈ hoursRange, ∃ m c,
      futureStep bd ptl storm
        (tracks.find? (fun track => track.stormName == storm.stormName)) lastP
        (velocityFrom lastP secondLastP).1 (velocityFrom lastP secondLastP).2
        (hr : ℚ) = .ok (m, c) ∧ m ≤ riskThreshold := by
  unfold analyzeFutureTrajectoryIntersections at h
  rw [if_neg (by omega), hlt] at h
  exact scanHours_ne_nil_iff bd ptl storm _ lastP _ _ trail.balloonId
    riskThreshold now hoursRange out h

/-- C1 witness: on the stationary trail with a matching track, the
predictor's emission is certified by hour 1 crossing the threshold. -/
theorem c1_witness :
    ∃ hr ∈ hoursRange, ∃ m c,
      futureStep bdConst ptlConst stormSq
        ([trackX].find? (fun track => track.stormName == stormSq.stormName))
        (originAt 7200000)
        (velocityFrom (originAt 7200000) (originAt 3600000)).1
        (velocityFrom (originAt 7200000) (originAt 3600000)).2 (hr : ℚ) =
        .ok (m, c) ∧ m ≤ 100 := by
  have he := predictorEvalTrack 0
  have hiff := c1_amended bdConst ptlConst trail3 stormSq [trackX] 100 0
    (originAt 7200000) (originAt 3600000)
    (by norm_num [lastTwo, recentPointsOf, trail3]) (by norm_num [trail3]) _ he
  exact hiff.mp (by simp)

/-- C1 counterexample: with a matching forecast track present, the code
emits a Future intersection for a stationary balloon sitting inside the
cone even though the spec's `isConverging` gate condition is false (the
stationary trail's minimum track distance equals its current distance), so
emission is not conditional on the four-part convergence gate. -/
theorem c1_counterexample :
    analyzeFutureTrajectoryIntersections bdConst ptlConst trail3 stormSq
      [trackX] 100 0 =
      .ok [⟨"b0", "STORMX", IntersectionKind.future, 0, 3600000, 15000,
            true, 1⟩] ∧
    lastTwo trail3.points = some (originAt 7200000, originAt 3600000) ∧
    velocityFrom (originAt 7200000) (originAt 3600000) = (0, 0) ∧
    specIsConverging ptlConst (originAt 7200000) 0 0 trackX = false := by
  refine ⟨?_, ?_, ?_, ?_⟩
  · rw [predictorEvalTrack 0]
    norm_num
  · norm_num [lastTwo, recentPointsOf, trail3]
  · norm_num [velocityFrom, originAt]
  · exact specIsConverging_const (originAt 7200000) 0 0 trackX 500

/-- C2 (amended): the predictor returns the empty list for trails with
fewer than 2 samples; the source guard is `points.length < 2`, not 3. -/
theorem c2_amended (bd ptl : Coord → List Coord → ℚ) (trail : BalloonTrail)
    (storm : StormCone) (tracks : List StormTrack) (riskThreshold now : ℚ)
    (h : trail.points.length < 2) :
    analyzeFutureTrajectoryIntersections bd ptl trail storm tracks
      riskThreshold now = .ok [] := by
  unfold analyzeFutureTrajectoryIntersections
  rw [if_pos h]

/-- C2 witness: a single-sample trail produces no prediction. -/
theorem c2_witness :
    trail1.points.length < 2 ∧
    analyzeFutureTrajectoryIntersections bdConst ptlConst trail1 stormSq []
      100 0 = .ok [] := by
  refine ⟨by norm_num [trail1], ?_⟩
  exact c2_amended bdConst ptlConst trail1 stormSq [] 100 0
    (by norm_num [trail1])

/-- C2 counterexample: a trail with exactly 2 samples (< 3) is processed
rather than skipped, and emits a Future intersection. -/
theorem c2_counterexample :
    trail2.points.length < 3 ∧
    analyzeFutureTrajectoryIntersections bdConst ptlConst trail2 stormSq []
      100 0 =
      .ok [⟨"b0", "STORMX", IntersectionKind.future, 0, 3600000, 15000,
            true, 1⟩] := by
  refine ⟨by norm_num [trail2], ?_⟩
  rw [predictorEval2 0]
  norm_num

/-- C3 (amended): the estimated velocity uses only the final consecutive
sample pair — the coordinate deltas between the last two samples divided by
the elapsed wall-clock time between them in hours — regardless of how many
earlier samples the trail has. -/
theorem c3_amended (pts : List BalloonDataPoint)
    (lastP secondLastP : BalloonDataPoint) (rest : List BalloonDataPoint)
    (hrev : pts.reverse = lastP :: secondLastP :: rest) :
    balloonVelocity pts =
      some ((lastP.latitude - secondLastP.latitude) /
              ((lastP.timestamp - secondLastP.timestamp) / (1000 * 60 * 60)),
            (lastP.longitude - secondLastP.longitude) /
              ((lastP.timestamp - secondLastP.timestamp) / (1000 * 60 * 60))) := by
  unfold balloonVelocity
  rw [lastTwo_eq pts lastP secondLastP rest hrev]
  simp [velocityFrom]

/-- C3 witness: on the five-sample fixture the velocity is the final
pair's delta over its elapsed hour. -/
theorem c3_witness :
    trail5.points.reverse =
      ⟨4, 0, 15000, 14400000, "b5"⟩ :: ⟨0, 0, 15000, 10800000, "b5"⟩ ::
        [⟨0, 0, 15000, 7200000, "b5"⟩, ⟨0, 0, 15000, 3600000, "b5"⟩,
         ⟨0, 0, 15000, 0, "b5"⟩] ∧
    balloonVelocity trail5.points =
      some (((4 : ℚ) - 0) / (((14400000 : ℚ) - 10800000) / (1000 * 60 * 60)),
            ((0 : ℚ) - 0) / (((14400000 : ℚ) - 10800000) / (1000 * 60 * 60))) := by
  refine ⟨by norm_num [trail5], ?_⟩
  exact c3_amended trail5.points ⟨4, 0, 15000, 14400000, "b5"⟩
    ⟨0, 0, 15000, 10800000, "b5"⟩
    [⟨0, 0, 15000, 7200000, "b5"⟩, ⟨0, 0, 15000, 3600000, "b5"⟩,
     ⟨0, 0, 15000, 0, "b5"⟩] (by norm_num [trail5])

/-- C3 counterexample: on a five-sample hourly trail whose only movement
is in the final step, the code's velocity (4°/h, the last delta over its
elapsed hour) differs from the spec's mean-of-deltas velocity (1°/h). -/
theorem c3_counterexample :
    2 ≤ trail5.points.length ∧
    balloonVelocity trail5.points = some (4, 0) ∧
    specVelocity trail5.points = some (1, 0) := by
  refine ⟨by norm_num [trail5], ?_, ?_⟩
  · norm_num [balloonVelocity, lastTwo, recentPointsOf, velocityFrom, trail5]
  · norm_num [specVelocity, trail5]

/-- C4 (amended): the current time is read from the system clock inside
`analyzeHurricaneIntersections` and the future-trajectory predictor (the
clock reading is modelled as the explicit `now` argument), and the outputs
genuinely depend on that reading: identical snapshot inputs at two
different clock readings can produce different outputs. -/
theorem c4_amended :
    (∃ n₁ n₂ : ℚ,
      analyzeHurricaneIntersections bdConst ptlConst [trail3] [stormSq] []
        100 n₁ ≠
      analyzeHurricaneIntersections bdConst ptlConst [trail3] [stormSq] []
        100 n₂) ∧
    (∃ n₁ n₂ : ℚ,
      analyzeFutureTrajectoryIntersections bdConst ptlConst trail3 stormSq []
        100 n₁ ≠
      analyzeFutureTrajectoryIntersections bdConst ptlConst trail3 stormSq []
        100 n₂) := by
  constructor
  · refine ⟨0, 3600000, ?_⟩
    rw [hiEval0, hiEval1]
    norm_num [hiOut0, hiOut1]
  · refine ⟨0, 3600000, ?_⟩
    rw [predictorEval3 0, predictorEval3 3600000]
    norm_num

/-- C4 counterexample: it is not the case that two calls of
`analyzeHurricaneIntersections` with identical snapshot inputs produce
identical outputs irrespective of the internally read clock value — the
classification (and `hoursFromNow`) shifts with the clock. -/
theorem c4_counterexample :
    ¬ ∀ n₁ n₂ : ℚ,
      analyzeHurricaneIntersections bdConst ptlConst [trail3] [stormSq] []
        100 n₁ =
      analyzeHurricaneIntersections bdConst ptlConst [trail3] [stormSq] []
        100 n₂ := by
  intro hall
  have h := hall 0 3600000
  rw [hiEval0, hiEval1] at h
  exact absurd h (by norm_num [hiOut0, hiOut1])

/-- C5 (amended): a storm whose polygon has an empty ring makes the
analysis fail fast — the call aborts with the generic runtime error raised
inside the geometry library rather than returning empty results; no
`GeometryError` carrying the storm's name exists anywhere in the code. -/
theorem c5_amended (bd : Coord → List Coord → ℚ) (trail : BalloonTrail)
    (name : String) (holes : List (List Coord)) (p : BalloonDataPoint)
    (rest : List BalloonDataPoint) (hp : trail.points = p :: rest) :
    analyzeProximity bd [trail] [⟨name, .polygon ([] :: holes)⟩] =
      .error undefinedReadMsg := by
  simp [analyzeProximity, proximityRaw, proximityRawStorms, alertsForTrailStorm,
    findClosestPointToStorm, hp, closestLoop, calculateDistanceToPolygon,
    booleanPointInPolygon, inPolyRings, inRing, Bind.bind, Except.bind]

/-- C5 witness: the malformed storm `stormAlpha` aborts the analysis of a
concrete trail. -/
theorem c5_witness :
    trail3.points = originAt 0 :: [originAt 3600000, originAt 7200000] ∧
    analyzeProximity bdConst [trail3] [stormAlpha] =
      .error undefinedReadMsg :=
  ⟨rfl, c5_amended bdConst trail3 "ALPHA" [] (originAt 0)
    [originAt 3600000, originAt 7200000] rfl⟩

/-- C5 counterexample: two malformed storms that differ only in name
produce the very same generic error value, so the failure is not a
`GeometryError` naming the offending storm. -/
theorem c5_counterexample :
    stormAlpha.stormName ≠ stormBravo.stormName ∧
    stormAlpha.geometry = stormBravo.geometry ∧
    analyzeProximity bdConst [trail3] [stormAlpha] =
      .error undefinedReadMsg ∧
    analyzeProximity bdConst [trail3] [stormBravo] =
      .error undefinedReadMsg := by
  refine ⟨by simp [stormAlpha, stormBravo], by simp [stormAlpha, stormBravo],
    ?_, ?_⟩ <;>
  norm_num [analyzeProximity, proximityRaw, proximityRawStorms,
    alertsForTrailStorm, findClosestPointToStorm, closestLoop,
    calculateDistanceToPolygon, booleanPointInPolygon, inPolyRings, inRing,
    stormAlpha, stormBravo, trail3, originAt, bdConst, Bind.bind, Except.bind,
    pure, Except.pure]

/-- C6: every alert `analyzeProximity` returns lies within the 100 km risk
threshold. -/
theorem c6_threshold (bd : Coord → List Coord → ℚ)
    (trails : List BalloonTrail) (storms : List StormCone)
    (out : List ProximityAlert)
    (h : analyzeProximity bd trails storms = .ok out) :
    ∀ a ∈ out, a.closestDistance ≤ 100 := by
  unfold analyzeProximity at h
  rw [exceptBind_ok_iff] at h
  obtain ⟨raw, hraw, hsort⟩ := h
  rw [exceptPure_eq_ok] at hsort
  subst hsort
  intro a ha
  rw [mem_sortByKey] at ha
  have hle := proximityRaw_le bd storms trails raw hraw a ha
  simpa [RISK_THRESHOLD_KM] using hle

/-- C6 witness: the two-storm fixture's alerts (distances 0 and 50) are
within threshold. -/
theorem c6_witness :
    analyzeProximity bdConst [trail3] [stormFar, stormSq] =
      .ok [⟨"b0", "STORMX", 0, 0, 15000, true⟩,
           ⟨"b0", "FARSTORM", 50, 0, 15000, false⟩] ∧
    (⟨"b0", "FARSTORM", 50, 0, 15000, false⟩ : ProximityAlert).closestDistance
      ≤ 100 := by
  refine ⟨proxEval, ?_⟩
  exact c6_threshold bdConst [trail3] [stormFar, stormSq] _ proxEval
    ⟨"b0", "FARSTORM", 50, 0, 15000, false⟩ (by simp)

/-- C7: every intersection `analyzeHurricaneIntersections` returns is
classified past exactly when its signed hours-from-now is ≤ 0, and the
past/future filtered subsets are disjoint and together cover the output. -/
theorem c7_partition (bd ptl : Coord → List Coord → ℚ)
    (trails : List BalloonTrail) (storms : List StormCone)
    (tracks : List StormTrack) (riskThreshold now : ℚ)
    (out : List HurricaneIntersection)
    (h : analyzeHurricaneIntersections bd ptl trails storms tracks
      riskThreshold now = .ok out) :
    (∀ i ∈ out,
      (i.intersectionType = IntersectionKind.past ↔ i.hoursFromNow ≤ 0)) ∧
    (∀ i, i ∈ out ↔
      i ∈ getPastIntersections out ∨ i ∈ getFutureIntersections out) ∧
    (∀ i, ¬ (i ∈ getPastIntersections out ∧ i ∈ getFutureIntersections out)) := by
  unfold analyzeHurricaneIntersections at h
  rw [exceptBind_ok_iff] at h
  obtain ⟨rawI, hrawI, hsort⟩ := h
  rw [exceptPure_eq_ok] at hsort
  subst hsort
  refine ⟨?_, ?_, ?_⟩
  · intro i hi
    rw [mem_sortByKey] at hi
    exact hiTrailLoop_kind bd ptl storms tracks riskThreshold now trails rawI
      hrawI i hi
  · intro i
    simp only [getPastIntersections, getFutureIntersections, List.mem_filter,
      decide_eq_true_eq]
    constructor
    · intro hi
      cases hk : i.intersectionType with
      | past => exact Or.inl ⟨hi, rfl⟩
      | future => exact Or.inr ⟨hi, rfl⟩
    · rintro (⟨hi, -⟩ | ⟨hi, -⟩) <;> exact hi
  · rintro i ⟨hp, hf⟩
    simp only [getPastIntersections, getFutureIntersections, List.mem_filter,
      decide_eq_true_eq] at hp hf
    have hcontra := hp.2.symm.trans hf.2
    exact absurd hcontra (by simp)

/-- C7 witness: the classification invariant instantiated at the first
element of the concrete run at clock 0. -/
theorem c7_witness :
    ((⟨"b0", "STORMX", IntersectionKind.past, 0, 0, 15000, true, 0⟩ :
        HurricaneIntersection).intersectionType = IntersectionKind.past ↔
      (⟨"b0", "STORMX", IntersectionKind.past, 0, 0, 15000, true, 0⟩ :
        HurricaneIntersection).hoursFromNow ≤ 0) ∧
    ((⟨"b0", "STORMX", IntersectionKind.past, 0, 0, 15000, true, 0⟩ :
        HurricaneIntersection) ∈ hiOut0 ↔
      (⟨"b0", "STORMX", IntersectionKind.past, 0, 0, 15000, true, 0⟩ :
          HurricaneIntersection) ∈ getPastIntersections hiOut0 ∨
      (⟨"b0", "STORMX", IntersectionKind.past, 0, 0, 15000, true, 0⟩ :
          HurricaneIntersection) ∈ getFutureIntersections hiOut0) ∧
    ¬ ((⟨"b0", "STORMX", IntersectionKind.past, 0, 0, 15000, true, 0⟩ :
          HurricaneIntersection) ∈ getPastIntersections hiOut0 ∧
       (⟨"b0", "STORMX", IntersectionKind.past, 0, 0, 15000, true, 0⟩ :
          HurricaneIntersection) ∈ getFutureIntersections hiOut0) := by
  have h := c7_partition bdConst ptlConst [trail3] [stormSq] [] 100 0 hiOut0
    hiEval0
  exact ⟨h.1 _ (by simp [hiOut0]), h.2.1 _, h.2.2 _⟩

/-- C8: per (trail, storm) pair the future-trajectory predictor emits at
most one intersection (first hit breaks the projection loop). -/
theorem c8_at_most_one (bd ptl : Coord → List Coord → ℚ)
    (trail : BalloonTrail) (storm : StormCone) (tracks : List StormTrack)
    (riskThreshold now : ℚ) (out : List HurricaneIntersection)
    (h : analyzeFutureTrajectoryIntersections bd ptl trail storm tracks
      riskThreshold now = .ok out) :
    out.length ≤ 1 := by
  unfold analyzeFutureTrajectoryIntersections at h
  split at h
  · cases h
    simp
  · split at h
    · cases h
      simp
    · exact scanHours_length bd ptl storm _ _ _ _ trail.balloonId
        riskThreshold now hoursRange out h

/-- C8 witness: the two-sample fixture emits exactly one intersection. -/
theorem c8_witness :
    analyzeFutureTrajectoryIntersections bdConst ptlConst trail2 stormSq []
      100 0 =
      .ok [⟨"b0", "STORMX", IntersectionKind.future, 0, 3600000, 15000,
            true, 1⟩] ∧
    ([⟨"b0", "STORMX", IntersectionKind.future, 0, 3600000, 15000, true, 1⟩] :
      List HurricaneIntersection).length ≤ 1 := by
  have he : analyzeFutureTrajectoryIntersections bdConst ptlConst trail2
      stormSq [] 100 0 =
      .ok [⟨"b0", "STORMX", IntersectionKind.future, 0, 3600000, 15000,
            true, 1⟩] := by
    rw [predictorEval2 0]
    norm_num
  exact ⟨he, c8_at_most_one bdConst ptlConst trail2 stormSq [] 100 0 _ he⟩

/-- C9: `analyzeProximity` output is sorted by non-decreasing distance and
the sort is stable — for every distance value, the subsequence of alerts at
that distance equals that of the unsorted trail-major, storm-minor
generation list. -/
theorem c9_sorted_stable (bd : Coord → List Coord → ℚ)
    (trails : List BalloonTrail) (storms : List StormCone)
    (raw out : List ProximityAlert)
    (hraw : proximityRaw bd trails storms = .ok raw)
    (hout : analyzeProximity bd trails storms = .ok out) :
    out.Pairwise (fun a b => a.closestDistance ≤ b.closestDistance) ∧
    ∀ d : ℚ, out.filter (fun a => decide (a.closestDistance = d)) =
      raw.filter (fun a => decide (a.closestDistance = d)) := by
  unfold analyzeProximity at hout
  rw [hraw, exceptBind_ok_iff] at hout
  obtain ⟨raw2, hraw2, hsort⟩ := hout
  injection hraw2 with hr
  subst hr
  rw [exceptPure_eq_ok] at hsort
  subst hsort
  exact ⟨pairwise_sortByKey (fun a => a.closestDistance) raw,
    fun d => filter_sortByKey (fun a => a.closestDistance) d raw⟩

/-- C9 witness: the two-storm fixture is generated in order distance 50
then 0, and is returned sorted 0 then 50 with the distance-50 subsequence
preserved. -/
theorem c9_witness :
    ([⟨"b0", "STORMX", 0, 0, 15000, true⟩,
      ⟨"b0", "FARSTORM", 50, 0, 15000, false⟩] :
        List ProximityAlert).Pairwise
      (fun a b => a.closestDistance ≤ b.closestDistance) ∧
    ([⟨"b0", "STORMX", 0, 0, 15000, true⟩,
      ⟨"b0", "FARSTORM", 50, 0, 15000, false⟩] :
        List ProximityAlert).filter
        (fun a => decide (a.closestDistance = 50)) =
      ([⟨"b0", "FARSTORM", 50, 0, 15000, false⟩,
        ⟨"b0", "STORMX", 0, 0, 15000, true⟩] :
          List ProximityAlert).filter
        (fun a => decide (a.closestDistance = 50)) := by
  have h := c9_sorted_stable bdConst [trail3] [stormFar, stormSq]
    [⟨"b0", "FARSTORM", 50, 0, 15000, false⟩,
     ⟨"b0", "STORMX", 0, 0, 15000, true⟩]
    [⟨"b0", "STORMX", 0, 0, 15000, true⟩,
     ⟨"b0", "FARSTORM", 50, 0, 15000, false⟩] proxRawEval proxEval
  exact ⟨h.1, h.2 50⟩

/-- C10: `getRecentTrajectory` keeps the balloon id and color, and its
points are exactly the input points whose timestamp is at least
`now − hours` (in original order); the computation is a pure projection of
the input trail. -/
theorem c10_frame (trail : BalloonTrail) (hours now : ℚ) :
    (getRecentTrajectory trail hours now).balloonId = trail.balloonId ∧
    (getRecentTrajectory trail hours now).color = trail.color ∧
    (getRecentTrajectory trail hours now).points.Sublist trail.points ∧
    ∀ p, p ∈ (getRecentTrajectory trail hours now).points ↔
      p ∈ trail.points ∧ now - hours * 60 * 60 * 1000 ≤ p.timestamp := by
  refine ⟨rfl, rfl, List.filter_sublist trail.points, ?_⟩
  intro p
  simp [getRecentTrajectory, List.mem_filter]
